import Mathlib

/-!
Shallow embedding of the BootcampLangGraph repository (src/state.py,
src/supervisor.py, src/agents.py, src/workflow.py, src/main.py).

The repository classifies a user utterance (via a language-model call) into
an action, parses the model's labelled-line response, and routes to one of
three stub handler agents through a LangGraph workflow, threading a small
session memory dict.  The language-model collaborator is treated as an
opaque `String -> String` function, so every definition below is
parameterised by its response string.

Python string primitives are embedded as structural recursions over
`List Char` so that concrete runs reduce in the kernel:
  - `pyStrip`   embeds `str.strip()` (trim ASCII whitespace on both ends);
  - `splitOnNl` embeds `str.split('\n')`;
  - `pyReplaceDel s pat` embeds `s.replace(pat, "")` (delete every
    occurrence of `pat`, left to right);
  - `List.isPrefixOf` embeds `str.startswith`.
-/

namespace BootcampLangGraph

/-- Whitespace test used by Python's `str.strip()` restricted to the ASCII
whitespace characters that can occur in the labelled-line responses. -/
def isSpace (c : Char) : Bool :=
  c == ' ' || c == '\t' || c == '\n' || c == '\r'

/-- Embedding of Python `str.strip()`: drop whitespace from both ends. -/
def pyStrip (l : List Char) : List Char :=
  ((l.dropWhile isSpace).reverse.dropWhile isSpace).reverse

/-- Embedding of Python `str.split('\n')`: split on every newline; the empty
string yields one empty field, matching `"".split('\n') == ['']`. -/
def splitOnNl : List Char → List (List Char)
  | [] => [[]]
  | c :: cs =>
    if c == '\n' then [] :: splitOnNl cs
    else
      match splitOnNl cs with
      | [] => [[c]]
      | g :: gs => (c :: g) :: gs

/-- Fuel-indexed worker for `pyReplaceDel`; the fuel starts at the length of
the subject list, which bounds the number of recursion steps whenever the
pattern is non-empty (all patterns in the parser are non-empty labels). -/
def replAux (pat : List Char) : Nat → List Char → List Char
  | _, [] => []
  | 0, l => l
  | fuel + 1, c :: cs =>
    if pat.isPrefixOf (c :: cs) then replAux pat fuel ((c :: cs).drop pat.length)
    else c :: replAux pat fuel cs

/-- Embedding of Python `s.replace(pat, "")`: delete every occurrence of
`pat` in `s`, scanning left to right. -/
def pyReplaceDel (s pat : List Char) : List Char :=
  replAux pat s.length s

/-- The trimmed text following a label on a line, as in
`line.replace(LABEL, "").strip()` (supervisor.py lines 131-145). -/
def labelValue (label line : List Char) : String :=
  ⟨pyStrip (pyReplaceDel line label)⟩

/-- Session memory dict (`state["user_memory"]`, keys `name`, `user_id`,
`email`).  The empty string encodes an absent key: the code only ever tests
keys for truthiness (`if memory.get("name"):`), which identifies missing
and empty values. -/
structure Memory where
  name : String
  user_id : String
  email : String
deriving DecidableEq, Repr

/-- The empty session memory (`session_memory = {}` in main.py). -/
def Memory.empty : Memory := ⟨"", "", ""⟩

/-- A partial memory update: the NAME / USER_ID / EMAIL fields parsed from
one `store_info` response; the empty string encodes an absent field. -/
structure MemUpdate where
  name : String
  user_id : String
  email : String
deriving DecidableEq, Repr

/-- The three memory fields. -/
inductive Field
  | name
  | user_id
  | email
deriving DecidableEq, Repr

/-- Memory field lookup (`memory.get(field)`; `""` encodes a missing key). -/
def Memory.get (m : Memory) : Field → String
  | .name => m.name
  | .user_id => m.user_id
  | .email => m.email

/-- Update field lookup. -/
def MemUpdate.get (p : MemUpdate) : Field → String
  | .name => p.name
  | .user_id => p.user_id
  | .email => p.email

/-- The memory-write sequence of supervisor.py lines 154-162: each present
(non-empty) field of the update overwrites the stored value, fields absent
from the update are left untouched. -/
def Memory.merge (m : Memory) (p : MemUpdate) : Memory :=
  let m1 := if p.name ≠ "" then { m with name := p.name } else m
  let m2 := if p.user_id ≠ "" then { m1 with user_id := p.user_id } else m1
  if p.email ≠ "" then { m2 with email := p.email } else m2

/-- The LangGraph `AgentState` (state.py), extended with the keys that the
code reads or writes beyond the TypedDict declaration: `user_memory`
(main.py / supervisor.py), `current_agent` and `status` (supervisor.py
lines 185-186).  Absent string keys are encoded as `""`. -/
structure AgentState where
  messages : List String
  action : String
  username : String
  extra_info : String
  result : String
  next_step : String
  user_memory : Memory
  current_agent : String
  status : String
deriving DecidableEq, Repr

/-- The `parsed` dict built by the response parser (supervisor.py lines
128-145): one optional entry per label; `none` means the dict has no such
key. -/
structure Parsed where
  action : Option String
  username : Option String
  extra : Option String
  name : Option String
  user_id : Option String
  email : Option String
deriving DecidableEq, Repr

/-- The empty `parsed` dict. -/
def Parsed.empty : Parsed := ⟨none, none, none, none, none, none⟩

/-- The `value if value != "none" else ""` normalisation applied to the
EXTRA, NAME, USER_ID and EMAIL values (supervisor.py lines 136, 139, 142,
145).  Note the code applies it to neither ACTION nor USERNAME. -/
def noneToEmpty (v : String) : String :=
  if v = "none" then "" else v

/-- One iteration of the response-parsing loop (supervisor.py lines
129-145): the first matching `LABEL:` test wins, a line matching no label
leaves the dict unchanged, and a later line for the same label overwrites
the earlier value. -/
def parseLine (parsed : Parsed) (line : List Char) : Parsed :=
  if "ACTION:".data.isPrefixOf line then
    { parsed with action := some (labelValue "ACTION:".data line) }
  else if "USERNAME:".data.isPrefixOf line then
    { parsed with username := some (labelValue "USERNAME:".data line) }
  else if "EXTRA:".data.isPrefixOf line then
    { parsed with extra := some (noneToEmpty (labelValue "EXTRA:".data line)) }
  else if "NAME:".data.isPrefixOf line then
    { parsed with name := some (noneToEmpty (labelValue "NAME:".data line)) }
  else if "USER_ID:".data.isPrefixOf line then
    { parsed with user_id := some (noneToEmpty (labelValue "USER_ID:".data line)) }
  else if "EMAIL:".data.isPrefixOf line then
    { parsed with email := some (noneToEmpty (labelValue "EMAIL:".data line)) }
  else parsed

/-- The whole parsing stage (supervisor.py lines 127-145):
`decision.strip().split('\n')` folded through `parseLine`. -/
def parseResponse (response : String) : Parsed :=
  (splitOnNl (pyStrip response.data)).foldl parseLine Parsed.empty

/-- The NAME / USER_ID / EMAIL projection of a parsed response — the
memory update a `store_info` decision carries (`""` for a missing key,
matching the falsiness test `if parsed.get("name"):`). -/
def Parsed.memUpdate (p : Parsed) : MemUpdate :=
  ⟨p.name.getD "", p.user_id.getD "", p.email.getD ""⟩

/-- The acknowledgement message of the `store_info` branch
(supervisor.py line 165). -/
def storeAck : String := "✓ Got it! I've remembered your information."

/-- The `action_to_agent` dict lookup with default `"end"`
(supervisor.py lines 177-183). -/
def actionToAgent (a : String) : String :=
  if a = "assign_role" then "role_agent"
  else if a = "reset_password" then "password_agent"
  else if a = "unlock_user" then "unlock_agent"
  else "end"

/-- The routing stage of `supervisor_agent` (supervisor.py lines 147-190),
acting on the already-parsed response: the `store_info` branch merges the
parsed fields into the session memory, sets the acknowledgement result and
ends the turn; every other action is copied into the state together with
the parsed username and extra info, and the next node is the
`action_to_agent` lookup (default `"end"`). -/
def supervisorRoute (parsed : Parsed) (st : AgentState) : AgentState :=
  if parsed.action = some "store_info" then
    { st with
      user_memory := st.user_memory.merge parsed.memUpdate
      result := storeAck
      next_step := "end"
      action := "store_info" }
  else
    { st with
      action := parsed.action.getD ""
      username := parsed.username.getD ""
      extra_info := parsed.extra.getD ""
      next_step := actionToAgent (parsed.action.getD "")
      current_agent := "supervisor"
      status := "in_progress" }

/-- `supervisor_agent` (supervisor.py lines 24-190), parameterised by the
language-model collaborator's response string: parse then route. -/
def supervisor_agent (response : String) (st : AgentState) : AgentState :=
  supervisorRoute (parseResponse response) st

/-- `role_agent` (agents.py lines 17-38): writes the result message and
`next_step = "end"`, leaving every other field unchanged. -/
def role_agent (st : AgentState) : AgentState :=
  { st with
    result := "✓ Successfully assigned role '" ++ st.extra_info ++ "' to " ++ st.username
    next_step := "end" }

/-- `password_agent` (agents.py lines 41-63), parameterised by the randomly
generated password: writes the result message and `next_step = "end"`,
leaving every other field unchanged. -/
def password_agent (newPassword : String) (st : AgentState) : AgentState :=
  { st with
    result := "✓ Password reset for " ++ st.username ++ "\n   New password: " ++ newPassword
    next_step := "end" }

/-- `unlock_agent` (agents.py lines 66-83): writes the result message and
`next_step = "end"`, leaving every other field unchanged. -/
def unlock_agent (st : AgentState) : AgentState :=
  { st with
    result := "✓ Successfully unlocked user " ++ st.username
    next_step := "end" }

/-- The LangGraph `END` sentinel. -/
def ENDSentinel : String := "__end__"

/-- `route_to_next` (workflow.py lines 46-56): `"end"` maps to the END
sentinel, anything else is taken as the next node name. -/
def route_to_next (st : AgentState) : String :=
  if st.next_step = "end" then ENDSentinel else st.next_step

/-- Node execution table of the compiled workflow (workflow.py lines
39-42): node name to agent function.  An unknown node name is a stutter
step (the compiled graph never produces one). -/
def runNode (response newPassword : String) (node : String) (st : AgentState) : AgentState :=
  if node = "supervisor" then supervisor_agent response st
  else if node = "role_agent" then role_agent st
  else if node = "password_agent" then password_agent newPassword st
  else if node = "unlock_agent" then unlock_agent st
  else st

/-- Edge table of the compiled workflow (workflow.py lines 63-77): the
supervisor's conditional edge follows `route_to_next` on the produced
state; each handler has an unconditional edge to END. -/
def nextNode (node : String) (st : AgentState) : String :=
  if node = "supervisor" then route_to_next st else ENDSentinel

/-- Fuel-indexed executor of the compiled graph: run the current node, move
along its out-edge, and record the trace of executed node names.  Stops at
the END sentinel. -/
def runFrom (response newPassword : String) : Nat → String → AgentState → AgentState × List String
  | 0, _, st => (st, [])
  | fuel + 1, node, st =>
    if node = ENDSentinel then (st, [])
    else
      let st' := runNode response newPassword node st
      let r := runFrom response newPassword fuel (nextNode node st') st'
      (r.1, node :: r.2)

/-- `app.invoke(initial_state)` (main.py line 66): execute the graph from
the `supervisor` entry point.  Ten units of fuel are more than the longest
possible run (supervisor, one handler, END). -/
def invoke (response newPassword : String) (st : AgentState) : AgentState × List String :=
  runFrom response newPassword 10 "supervisor" st

/-- The per-turn initial state built by main.py lines 53-61: the utterance
as the single message, every other string field empty, entry at
`supervisor`, and the carried-over session memory. -/
def initialState (utterance : String) (mem : Memory) : AgentState :=
  ⟨[utterance], "", "", "", "", "supervisor", mem, "", ""⟩

/-!
Heap model for the in-place dict mutation of the `store_info` branch.

`state["user_memory"]` in Python is a reference to a dict object; the
`store_info` branch of supervisor.py (lines 150-162) writes through that
reference, and main.py line 70 rebinds `session_memory` to the same
reference.  `PyHeap` makes the object store explicit so that statements
about object identity and in-place update become expressible.
-/

/-- An explicit store of memory dict objects; a reference is an index. -/
structure PyHeap where
  objs : List Memory
deriving DecidableEq, Repr

/-- Dereference a memory object (out-of-range reads give the empty dict;
the code never produces a dangling reference). -/
def PyHeap.read (h : PyHeap) (r : Nat) : Memory :=
  h.objs.getD r Memory.empty

/-- Overwrite the object behind a reference. -/
def PyHeap.write (h : PyHeap) (r : Nat) (m : Memory) : PyHeap :=
  ⟨h.objs.set r m⟩

/-- A session state under reference semantics: the heap of dict objects
plus the reference held in `state["user_memory"]` / `session_memory`. -/
structure SessionRef where
  heap : PyHeap
  memRef : Nat
deriving DecidableEq, Repr

/-- The `store_info` branch of supervisor.py lines 150-162 under Python
reference semantics.  First the reinit guard of lines 150-151
(`if not state.get("user_memory"): state["user_memory"] = {}`): when the
prior memory is falsy — an empty dict, which in this model is the
all-empty `Memory.empty`, since the code only ever stores non-empty
values — a fresh empty dict object is allocated at a fresh reference and
the state is rebound to it.  Then the field writes of lines 154-162 go
through the (possibly rebound) reference: each present, non-empty parsed
field overwrites the dict object behind it.  main.py line 70 rebinds
`session_memory` to whatever reference the state holds afterwards. -/
def storeInfoInPlace (s : SessionRef) (p : MemUpdate) : SessionRef :=
  let s' : SessionRef :=
    if s.heap.read s.memRef = Memory.empty then
      ⟨⟨s.heap.objs ++ [Memory.empty]⟩, s.heap.objs.length⟩
    else s
  ⟨s'.heap.write s'.memRef ((s'.heap.read s'.memRef).merge p), s'.memRef⟩

/-!
Helper lemmas shared by the claim theorems.
-/

/-- The `store_info` branch of the routing stage, as one record equation. -/
theorem supervisorRoute_store (p : Parsed) (st : AgentState)
    (h : p.action = some "store_info") :
    supervisorRoute p st =
      { st with
        user_memory := st.user_memory.merge p.memUpdate
        result := storeAck
        next_step := "end"
        action := "store_info" } := by
  unfold supervisorRoute
  rw [if_pos h]

/-- The non-`store_info` branch of the routing stage, as one record
equation. -/
theorem supervisorRoute_nonstore (p : Parsed) (st : AgentState)
    (h : p.action ≠ some "store_info") :
    supervisorRoute p st =
      { st with
        action := p.action.getD ""
        username := p.username.getD ""
        extra_info := p.extra.getD ""
        next_step := actionToAgent (p.action.getD "")
        current_agent := "supervisor"
        status := "in_progress" } := by
  unfold supervisorRoute
  rw [if_neg h]

/-- C4: for every decision whose action is one of the three operational
actions with a non-empty username, the routing stage dispatches to the
handler node registered for that action (`assign_role` to `role_agent`,
`reset_password` to `password_agent`, `unlock_user` to `unlock_agent`),
carries the parsed username and extra info into the state unchanged, and
leaves the session memory unchanged. -/
theorem C4_operational_dispatch (p : Parsed) (st : AgentState) (a : String)
    (ha : p.action = some a)
    (hop : a = "assign_role" ∨ a = "reset_password" ∨ a = "unlock_user")
    (hu : p.username.getD "" ≠ "") :
    (supervisorRoute p st).next_step = actionToAgent a ∧
    (supervisorRoute p st).username = p.username.getD "" ∧
    (supervisorRoute p st).extra_info = p.extra.getD "" ∧
    (supervisorRoute p st).action = a ∧
    (supervisorRoute p st).user_memory = st.user_memory ∧
    (a = "assign_role" → actionToAgent a = "role_agent") ∧
    (a = "reset_password" → actionToAgent a = "password_agent") ∧
    (a = "unlock_user" → actionToAgent a = "unlock_agent") := by
  have hns : p.action ≠ some "store_info" := by
    rw [ha]
    rcases hop with h | h | h <;> subst h <;> simp
  rw [supervisorRoute_nonstore p st hns, ha]
  refine ⟨rfl, rfl, rfl, rfl, rfl, ?_, ?_, ?_⟩ <;>
    · intro h
      subst h
      rfl

/-- C4 witness: the spec's worked example — an `assign_role` decision for
`john.doe` with extra `HR Manager` dispatches to `role_agent` with both
fields carried unchanged. -/
theorem C4_witness :
    (parseResponse "ACTION: assign_role\nUSERNAME: john.doe\nEXTRA: HR Manager").action
        = some "assign_role" ∧
    (parseResponse "ACTION: assign_role\nUSERNAME: john.doe\nEXTRA: HR Manager").username.getD ""
        = "john.doe" ∧
    (parseResponse "ACTION: assign_role\nUSERNAME: john.doe\nEXTRA: HR Manager").extra.getD ""
        = "HR Manager" ∧
    actionToAgent "assign_role" = "role_agent" ∧
    ((supervisorRoute (parseResponse "ACTION: assign_role\nUSERNAME: john.doe\nEXTRA: HR Manager")
        (initialState "Assign HR Manager role to john.doe" Memory.empty)).next_step
          = actionToAgent "assign_role" ∧
      (supervisorRoute (parseResponse "ACTION: assign_role\nUSERNAME: john.doe\nEXTRA: HR Manager")
        (initialState "Assign HR Manager role to john.doe" Memory.empty)).username
          = (parseResponse "ACTION: assign_role\nUSERNAME: john.doe\nEXTRA: HR Manager").username.getD "" ∧
      (supervisorRoute (parseResponse "ACTION: assign_role\nUSERNAME: john.doe\nEXTRA: HR Manager")
        (initialState "Assign HR Manager role to john.doe" Memory.empty)).extra_info
          = (parseResponse "ACTION: assign_role\nUSERNAME: john.doe\nEXTRA: HR Manager").extra.getD "" ∧
      (supervisorRoute (parseResponse "ACTION: assign_role\nUSERNAME: john.doe\nEXTRA: HR Manager")
        (initialState "Assign HR Manager role to john.doe" Memory.empty)).action
          = "assign_role" ∧
      (supervisorRoute (parseResponse "ACTION: assign_role\nUSERNAME: john.doe\nEXTRA: HR Manager")
        (initialState "Assign HR Manager role to john.doe" Memory.empty)).user_memory
          = (initialState "Assign HR Manager role to john.doe" Memory.empty).user_memory ∧
      (("assign_role" : String) = "assign_role" → actionToAgent "assign_role" = "role_agent") ∧
      (("assign_role" : String) = "reset_password" → actionToAgent "assign_role" = "password_agent") ∧
      (("assign_role" : String) = "unlock_user" → actionToAgent "assign_role" = "unlock_agent")) :=
  ⟨by decide, by decide, by decide, by decide,
    C4_operational_dispatch
      (parseResponse "ACTION: assign_role\nUSERNAME: john.doe\nEXTRA: HR Manager")
      (initialState "Assign HR Manager role to john.doe" Memory.empty)
      "assign_role" (by decide) (Or.inl rfl) (by decide)⟩

/-- C5: for every decision whose action is `store_info` and every state,
the routing stage merges the parsed NAME / USER_ID / EMAIL fields into the
session memory, sets the fixed acknowledgement message as the result, ends
the turn (`next_step = "end"`), and the conditional edge then goes to the
END sentinel, so no handler node runs. -/
theorem C5_store_info_merges (p : Parsed) (st : AgentState)
    (h : p.action = some "store_info") :
    supervisorRoute p st =
      { st with
        user_memory := st.user_memory.merge p.memUpdate
        result := storeAck
        next_step := "end"
        action := "store_info" } ∧
    route_to_next (supervisorRoute p st) = ENDSentinel := by
  refine ⟨supervisorRoute_store p st h, ?_⟩
  rw [supervisorRoute_store p st h]
  rfl

/-- C5 witness: the spec's worked example — storing
`user_id = aklankdiwakar` against the empty memory yields a memory whose
`user_id` reads back as `aklankdiwakar`, with the acknowledgement result
and no handler dispatched. -/
theorem C5_witness :
    (parseResponse "ACTION: store_info\nUSERNAME: none\nEXTRA: none\nNAME: none\nUSER_ID: aklankdiwakar\nEMAIL: none").action
        = some "store_info" ∧
    (supervisorRoute
        (parseResponse "ACTION: store_info\nUSERNAME: none\nEXTRA: none\nNAME: none\nUSER_ID: aklankdiwakar\nEMAIL: none")
        (initialState "I am Aklank and my user id is aklankdiwakar" Memory.empty)
      = { (initialState "I am Aklank and my user id is aklankdiwakar" Memory.empty) with
          user_memory := Memory.empty.merge
            (parseResponse "ACTION: store_info\nUSERNAME: none\nEXTRA: none\nNAME: none\nUSER_ID: aklankdiwakar\nEMAIL: none").memUpdate
          result := storeAck
          next_step := "end"
          action := "store_info" } ∧
      route_to_next
        (supervisorRoute
          (parseResponse "ACTION: store_info\nUSERNAME: none\nEXTRA: none\nNAME: none\nUSER_ID: aklankdiwakar\nEMAIL: none")
          (initialState "I am Aklank and my user id is aklankdiwakar" Memory.empty)) = ENDSentinel) ∧
    (supervisorRoute
        (parseResponse "ACTION: store_info\nUSERNAME: none\nEXTRA: none\nNAME: none\nUSER_ID: aklankdiwakar\nEMAIL: none")
        (initialState "I am Aklank and my user id is aklankdiwakar" Memory.empty)).user_memory.get
      Field.user_id = "aklankdiwakar" :=
  ⟨by decide,
    C5_store_info_merges
      (parseResponse "ACTION: store_info\nUSERNAME: none\nEXTRA: none\nNAME: none\nUSER_ID: aklankdiwakar\nEMAIL: none")
      (initialState "I am Aklank and my user id is aklankdiwakar" Memory.empty)
      (by decide),
    by decide⟩

/-- C6: memory merge is field-wise override — the merged value of a field
is the update's value when that field is present and non-empty in the
update and the prior value otherwise — and merge is idempotent. -/
theorem C6_merge_override_idem (m : Memory) (p : MemUpdate) (f : Field) :
    (m.merge p).get f = (if p.get f = "" then m.get f else p.get f) ∧
    (m.merge p).merge p = m.merge p := by
  constructor
  · rcases eq_or_ne p.name "" with h1 | h1 <;>
      rcases eq_or_ne p.user_id "" with h2 | h2 <;>
        rcases eq_or_ne p.email "" with h3 | h3 <;>
          cases f <;>
            simp [Memory.merge, Memory.get, MemUpdate.get, h1, h2, h3]
  · rcases eq_or_ne p.name "" with h1 | h1 <;>
      rcases eq_or_ne p.user_id "" with h2 | h2 <;>
        rcases eq_or_ne p.email "" with h3 | h3 <;>
          simp [Memory.merge, h1, h2, h3]

/-- C1 counterexample: for the decision parsed from a response with
operational action `assign_role` and no username (so the username is
empty), the workflow does not reject the turn with a missing-username
message — it dispatches to `role_agent`, the handler runs, and no
`missing username` text appears in the resulting state. -/
theorem C1_counterexample :
    (parseResponse "ACTION: assign_role").action = some "assign_role" ∧
    (parseResponse "ACTION: assign_role").username.getD "" = "" ∧
    (supervisorRoute (parseResponse "ACTION: assign_role")
        (initialState "assign a role" Memory.empty)).next_step = "role_agent" ∧
    (supervisorRoute (parseResponse "ACTION: assign_role")
        (initialState "assign a role" Memory.empty)).result = "" ∧
    (invoke "ACTION: assign_role" "pw0" (initialState "assign a role" Memory.empty)).2
      = ["supervisor", "role_agent"] ∧
    (invoke "ACTION: assign_role" "pw0" (initialState "assign a role" Memory.empty)).1.result
      = "✓ Successfully assigned role '' to " := by
  decide

/-- C1 amended: for every decision whose action is one of the three
operational actions and whose username is empty, the routing stage still
dispatches to the action's handler node (there is no missing-username
rejection in the code): the next step is the `action_to_agent` image of
the action, which is a handler node and not `"end"`, the state's username
is empty, and the result message and session memory are unchanged. -/
theorem C1_empty_username_still_dispatches (p : Parsed) (st : AgentState) (a : String)
    (ha : p.action = some a)
    (hop : a = "assign_role" ∨ a = "reset_password" ∨ a = "unlock_user")
    (hu : p.username.getD "" = "") :
    (supervisorRoute p st).next_step = actionToAgent a ∧
    actionToAgent a ≠ "end" ∧
    (supervisorRoute p st).username = "" ∧
    (supervisorRoute p st).result = st.result ∧
    (supervisorRoute p st).user_memory = st.user_memory := by
  have hns : p.action ≠ some "store_info" := by
    rw [ha]
    rcases hop with h | h | h <;> subst h <;> simp
  rw [supervisorRoute_nonstore p st hns, ha]
  refine ⟨rfl, ?_, hu, rfl, rfl⟩
  rcases hop with h | h | h <;> subst h <;> decide

/-- C1 witness: the amended behaviour at the concrete empty-username
`assign_role` decision. -/
theorem C1_witness :
    (parseResponse "ACTION: assign_role").action = some "assign_role" ∧
    (parseResponse "ACTION: assign_role").username.getD "" = "" ∧
    ((supervisorRoute (parseResponse "ACTION: assign_role")
        (initialState "assign a role" Memory.empty)).next_step = actionToAgent "assign_role" ∧
      actionToAgent "assign_role" ≠ "end" ∧
      (supervisorRoute (parseResponse "ACTION: assign_role")
        (initialState "assign a role" Memory.empty)).username = "" ∧
      (supervisorRoute (parseResponse "ACTION: assign_role")
        (initialState "assign a role" Memory.empty)).result
          = (initialState "assign a role" Memory.empty).result ∧
      (supervisorRoute (parseResponse "ACTION: assign_role")
        (initialState "assign a role" Memory.empty)).user_memory
          = (initialState "assign a role" Memory.empty).user_memory) :=
  ⟨by decide, by decide,
    C1_empty_username_still_dispatches
      (parseResponse "ACTION: assign_role")
      (initialState "assign a role" Memory.empty)
      "assign_role" (by decide) (Or.inl rfl) (by decide)⟩

/-- C2 counterexample: a response whose only ACTION line carries an
unrecognised value yields a decision whose action is that raw value
(`garbage`), not the literal `unknown` — the parser performs no
normalisation to `unknown`. -/
theorem C2_counterexample :
    (parseResponse "ACTION: garbage").action = some "garbage" ∧
    (supervisorRoute (parseResponse "ACTION: garbage")
        (initialState "gibberish" Memory.empty)).action = "garbage" ∧
    ("garbage" : String) ≠ "unknown" := by
  decide

/-- C2 amended: the parsing stage is a total function (it returns a parsed
decision for every collaborator response string); when the response has no
ACTION line carrying one of the five known action values, the decision
keeps the raw parsed action (empty when no ACTION line was present) — it
is never set to the literal `unknown` — and the routing stage sends such a
turn to `"end"`. -/
theorem C2_parser_total_raw_action (response : String) (st : AgentState)
    (h : (parseResponse response).action.getD "" ∉
      (["assign_role", "reset_password", "unlock_user", "store_info", "unknown"] : List String)) :
    (supervisorRoute (parseResponse response) st).action
      = (parseResponse response).action.getD "" ∧
    (supervisorRoute (parseResponse response) st).action ≠ "unknown" ∧
    (supervisorRoute (parseResponse response) st).next_step = "end" := by
  have hns : (parseResponse response).action ≠ some "store_info" := by
    intro hc
    exact h (by rw [hc]; decide)
  rw [supervisorRoute_nonstore (parseResponse response) st hns]
  have h1 : (parseResponse response).action.getD "" ≠ "assign_role" := by
    intro hc; exact h (by rw [hc]; decide)
  have h2 : (parseResponse response).action.getD "" ≠ "reset_password" := by
    intro hc; exact h (by rw [hc]; decide)
  have h3 : (parseResponse response).action.getD "" ≠ "unlock_user" := by
    intro hc; exact h (by rw [hc]; decide)
  have h4 : (parseResponse response).action.getD "" ≠ "unknown" := by
    intro hc; exact h (by rw [hc]; decide)
  refine ⟨rfl, h4, ?_⟩
  show actionToAgent ((parseResponse response).action.getD "") = "end"
  unfold actionToAgent
  rw [if_neg h1, if_neg h2, if_neg h3]

/-- C2 witness: the amended behaviour at the concrete garbled response. -/
theorem C2_witness :
    (parseResponse "ACTION: garbage").action.getD "" ∉
      (["assign_role", "reset_password", "unlock_user", "store_info", "unknown"] : List String) ∧
    ((supervisorRoute (parseResponse "ACTION: garbage")
        (initialState "gibberish" Memory.empty)).action
          = (parseResponse "ACTION: garbage").action.getD "" ∧
      (supervisorRoute (parseResponse "ACTION: garbage")
        (initialState "gibberish" Memory.empty)).action ≠ "unknown" ∧
      (supervisorRoute (parseResponse "ACTION: garbage")
        (initialState "gibberish" Memory.empty)).next_step = "end") :=
  ⟨by decide,
    C2_parser_total_raw_action "ACTION: garbage"
      (initialState "gibberish" Memory.empty) (by decide)⟩

/-- C3 counterexample: for a decision whose action is `unknown`, the
routing stage ends the turn with the result message left empty — it does
not produce any `could not understand request` rejection message, and the
workflow trace stops after the supervisor. -/
theorem C3_counterexample :
    (parseResponse "ACTION: unknown").action = some "unknown" ∧
    (supervisorRoute (parseResponse "ACTION: unknown")
        (initialState "what" Memory.empty)).next_step = "end" ∧
    (supervisorRoute (parseResponse "ACTION: unknown")
        (initialState "what" Memory.empty)).result = "" ∧
    ("" : String) ≠ "could not understand request" ∧
    (invoke "ACTION: unknown" "pw0" (initialState "what" Memory.empty)).2
      = ["supervisor"] := by
  decide

/-- C3 amended: for every decision whose action is neither `store_info`
nor one of the three operational actions (this includes `unknown`, the
empty action, and any garbled value), the routing stage sends the turn to
`"end"` with the result message and the session memory unchanged; no
rejection message is produced.  This differs from `store_info` handling
only in that the latter sets the acknowledgement message and merges the
parsed fields into memory. -/
theorem C3_unmapped_action_ends (p : Parsed) (st : AgentState)
    (hns : p.action ≠ some "store_info")
    (h : p.action.getD "" ∉
      (["assign_role", "reset_password", "unlock_user"] : List String)) :
    (supervisorRoute p st).next_step = "end" ∧
    (supervisorRoute p st).result = st.result ∧
    (supervisorRoute p st).user_memory = st.user_memory := by
  rw [supervisorRoute_nonstore p st hns]
  have h1 : p.action.getD "" ≠ "assign_role" := by
    intro hc; exact h (by rw [hc]; decide)
  have h2 : p.action.getD "" ≠ "reset_password" := by
    intro hc; exact h (by rw [hc]; decide)
  have h3 : p.action.getD "" ≠ "unlock_user" := by
    intro hc; exact h (by rw [hc]; decide)
  refine ⟨?_, rfl, rfl⟩
  show actionToAgent (p.action.getD "") = "end"
  unfold actionToAgent
  rw [if_neg h1, if_neg h2, if_neg h3]

/-- C3 witness: the amended behaviour at the concrete `unknown` decision. -/
theorem C3_witness :
    (parseResponse "ACTION: unknown").action ≠ some "store_info" ∧
    (parseResponse "ACTION: unknown").action.getD "" ∉
      (["assign_role", "reset_password", "unlock_user"] : List String) ∧
    ((supervisorRoute (parseResponse "ACTION: unknown")
        (initialState "what" Memory.empty)).next_step = "end" ∧
      (supervisorRoute (parseResponse "ACTION: unknown")
        (initialState "what" Memory.empty)).result
          = (initialState "what" Memory.empty).result ∧
      (supervisorRoute (parseResponse "ACTION: unknown")
        (initialState "what" Memory.empty)).user_memory
          = (initialState "what" Memory.empty).user_memory) :=
  ⟨by decide, by decide,
    C3_unmapped_action_ends (parseResponse "ACTION: unknown")
      (initialState "what" Memory.empty) (by decide) (by decide)⟩

/-- Setting the element just past a list, appended as a singleton, replaces
that singleton. -/
theorem set_append_singleton (l : List Memory) (e v : Memory) :
    (l ++ [e]).set l.length v = l ++ [v] := by
  induction l with
  | nil => rfl
  | cons x xs ih => simp [List.set, ih]

/-- C7 counterexample: for a session whose memory dict is already
non-empty (here it holds `name = Aklank` from an earlier store turn), the
`store_info` branch mutates the dict object behind the state's existing
reference — afterwards the same pre-existing reference holds a changed
value and the heap has no new object — so merging does not return a new
Memory and the input Memory is not left unchanged. -/
theorem C7_counterexample :
    (⟨⟨[⟨"Aklank", "", ""⟩]⟩, 0⟩ : SessionRef).heap.read 0 ≠ Memory.empty ∧
    (storeInfoInPlace ⟨⟨[⟨"Aklank", "", ""⟩]⟩, 0⟩ ⟨"", "aklankdiwakar", ""⟩).heap.read 0
      ≠ (⟨⟨[⟨"Aklank", "", ""⟩]⟩, 0⟩ : SessionRef).heap.read 0 ∧
    (storeInfoInPlace ⟨⟨[⟨"Aklank", "", ""⟩]⟩, 0⟩ ⟨"", "aklankdiwakar", ""⟩).memRef
      = (⟨⟨[⟨"Aklank", "", ""⟩]⟩, 0⟩ : SessionRef).memRef ∧
    (storeInfoInPlace ⟨⟨[⟨"Aklank", "", ""⟩]⟩, 0⟩ ⟨"", "aklankdiwakar", ""⟩).heap.objs.length
      = (⟨⟨[⟨"Aklank", "", ""⟩]⟩, 0⟩ : SessionRef).heap.objs.length := by
  decide

/-- C7 amended: the `store_info` update is in place exactly when the prior
memory is non-empty.  In every case the value observed through the
resulting state's reference is the field-wise `Memory.merge` of the prior
value with the update.  When the prior memory is non-empty, the dict
object behind the state's existing reference is mutated: the reference is
unchanged (the caller observes the update through its old reference), all
other heap objects are unchanged, and no new object is allocated.  When
the prior memory is empty (falsy — in particular the session's first
store turn), the reinit guard allocates a fresh dict object at a fresh
reference and rebinds the state to it: every pre-existing object is left
unchanged and the heap grows by one. -/
theorem C7_store_info_reference_semantics (s : SessionRef) (p : MemUpdate) :
    (storeInfoInPlace s p).heap.read (storeInfoInPlace s p).memRef
      = (s.heap.read s.memRef).merge p ∧
    (s.heap.read s.memRef ≠ Memory.empty →
      (storeInfoInPlace s p).memRef = s.memRef ∧
      (∀ r, r ≠ s.memRef → (storeInfoInPlace s p).heap.read r = s.heap.read r) ∧
      (storeInfoInPlace s p).heap.objs.length = s.heap.objs.length) ∧
    (s.heap.read s.memRef = Memory.empty →
      (storeInfoInPlace s p).memRef = s.heap.objs.length ∧
      (∀ r, r < s.heap.objs.length → (storeInfoInPlace s p).heap.read r = s.heap.read r) ∧
      (storeInfoInPlace s p).heap.objs.length = s.heap.objs.length + 1) := by
  by_cases hc : s.heap.read s.memRef = Memory.empty
  · have hfresh : (⟨⟨s.heap.objs ++ [Memory.empty]⟩, s.heap.objs.length⟩ : SessionRef).heap.read
        s.heap.objs.length = Memory.empty := by
      show (s.heap.objs ++ [Memory.empty]).getD s.heap.objs.length Memory.empty = Memory.empty
      rw [List.getD_append_right _ _ _ _ (Nat.le_refl _)]
      simp
    have hdef : storeInfoInPlace s p =
        ⟨⟨s.heap.objs ++ [Memory.empty.merge p]⟩, s.heap.objs.length⟩ := by
      unfold storeInfoInPlace
      rw [if_pos hc]
      show (⟨⟨(s.heap.objs ++ [Memory.empty]).set s.heap.objs.length _⟩, _⟩ : SessionRef) = _
      rw [hfresh, set_append_singleton]
    rw [hdef]
    refine ⟨?_, fun hne => absurd hc hne, fun _ => ⟨rfl, ?_, by simp⟩⟩
    · show (s.heap.objs ++ [Memory.empty.merge p]).getD s.heap.objs.length Memory.empty
        = (s.heap.read s.memRef).merge p
      rw [List.getD_append_right _ _ _ _ (Nat.le_refl _), hc]
      simp
    · intro r hr
      show (s.heap.objs ++ [Memory.empty.merge p]).getD r Memory.empty
        = s.heap.objs.getD r Memory.empty
      rw [List.getD_append _ _ _ _ hr]
  · have hlt : s.memRef < s.heap.objs.length := by
      by_contra hge
      exact hc (List.getD_eq_default _ _ (Nat.le_of_not_lt hge))
    have hdef : storeInfoInPlace s p =
        ⟨s.heap.write s.memRef ((s.heap.read s.memRef).merge p), s.memRef⟩ := by
      unfold storeInfoInPlace
      rw [if_neg hc]
    rw [hdef]
    refine ⟨?_, fun _ => ⟨rfl, ?_, by simp [PyHeap.write]⟩, fun he => absurd he hc⟩
    · show (s.heap.objs.set s.memRef _).getD s.memRef Memory.empty = _
      rw [List.getD_eq_getElem _ _ (by simpa using hlt)]
      exact List.getElem_set_self _
    · intro r hr
      show (s.heap.objs.set s.memRef _).getD r Memory.empty = s.heap.objs.getD r Memory.empty
      by_cases hi : r < s.heap.objs.length
      · rw [List.getD_eq_getElem _ _ (by simpa using hi), List.getD_eq_getElem _ _ hi]
        exact List.getElem_set_ne hr.symm _
      · rw [List.getD_eq_default _ _ (by simpa using Nat.le_of_not_lt hi),
          List.getD_eq_default _ _ (Nat.le_of_not_lt hi)]

/-- C7 witness: both cases of the amended behaviour at concrete sessions —
the in-place mutation for a non-empty prior memory (name already stored)
and the fresh allocation for the empty first-turn memory. -/
theorem C7_witness :
    (⟨⟨[⟨"Aklank", "", ""⟩]⟩, 0⟩ : SessionRef).heap.read
        (⟨⟨[⟨"Aklank", "", ""⟩]⟩, 0⟩ : SessionRef).memRef ≠ Memory.empty ∧
    (storeInfoInPlace ⟨⟨[⟨"Aklank", "", ""⟩]⟩, 0⟩ ⟨"", "aklankdiwakar", ""⟩).heap.read
        (storeInfoInPlace ⟨⟨[⟨"Aklank", "", ""⟩]⟩, 0⟩ ⟨"", "aklankdiwakar", ""⟩).memRef
      = ((⟨⟨[⟨"Aklank", "", ""⟩]⟩, 0⟩ : SessionRef).heap.read
          (⟨⟨[⟨"Aklank", "", ""⟩]⟩, 0⟩ : SessionRef).memRef).merge ⟨"", "aklankdiwakar", ""⟩ ∧
    ((storeInfoInPlace ⟨⟨[⟨"Aklank", "", ""⟩]⟩, 0⟩ ⟨"", "aklankdiwakar", ""⟩).memRef
        = (⟨⟨[⟨"Aklank", "", ""⟩]⟩, 0⟩ : SessionRef).memRef ∧
      (∀ r, r ≠ (⟨⟨[⟨"Aklank", "", ""⟩]⟩, 0⟩ : SessionRef).memRef →
        (storeInfoInPlace ⟨⟨[⟨"Aklank", "", ""⟩]⟩, 0⟩ ⟨"", "aklankdiwakar", ""⟩).heap.read r
          = (⟨⟨[⟨"Aklank", "", ""⟩]⟩, 0⟩ : SessionRef).heap.read r) ∧
      (storeInfoInPlace ⟨⟨[⟨"Aklank", "", ""⟩]⟩, 0⟩ ⟨"", "aklankdiwakar", ""⟩).heap.objs.length
        = (⟨⟨[⟨"Aklank", "", ""⟩]⟩, 0⟩ : SessionRef).heap.objs.length) ∧
    (⟨⟨[Memory.empty]⟩, 0⟩ : SessionRef).heap.read
        (⟨⟨[Memory.empty]⟩, 0⟩ : SessionRef).memRef = Memory.empty ∧
    ((storeInfoInPlace ⟨⟨[Memory.empty]⟩, 0⟩ ⟨"", "aklankdiwakar", ""⟩).memRef
        = (⟨⟨[Memory.empty]⟩, 0⟩ : SessionRef).heap.objs.length ∧
      (∀ r, r < (⟨⟨[Memory.empty]⟩, 0⟩ : SessionRef).heap.objs.length →
        (storeInfoInPlace ⟨⟨[Memory.empty]⟩, 0⟩ ⟨"", "aklankdiwakar", ""⟩).heap.read r
          = (⟨⟨[Memory.empty]⟩, 0⟩ : SessionRef).heap.read r) ∧
      (storeInfoInPlace ⟨⟨[Memory.empty]⟩, 0⟩ ⟨"", "aklankdiwakar", ""⟩).heap.objs.length
        = (⟨⟨[Memory.empty]⟩, 0⟩ : SessionRef).heap.objs.length + 1) :=
  ⟨by decide,
    (C7_store_info_reference_semantics ⟨⟨[⟨"Aklank", "", ""⟩]⟩, 0⟩ ⟨"", "aklankdiwakar", ""⟩).1,
    (C7_store_info_reference_semantics ⟨⟨[⟨"Aklank", "", ""⟩]⟩, 0⟩
      ⟨"", "aklankdiwakar", ""⟩).2.1 (by decide),
    by decide,
    (C7_store_info_reference_semantics ⟨⟨[Memory.empty]⟩, 0⟩
      ⟨"", "aklankdiwakar", ""⟩).2.2 (by decide)⟩

/-- C8 counterexample: a USERNAME line whose value is the literal token
`none` yields the literal string `none` in the parsed decision and in the
routed state's username — the code's `none`-to-empty normalisation is not
applied to the USERNAME field. -/
theorem C8_counterexample :
    (parseResponse "USERNAME: none").username = some "none" ∧
    (supervisorRoute (parseResponse "USERNAME: none")
        (initialState "hello" Memory.empty)).username = "none" ∧
    ("none" : String) ≠ "" := by
  decide

/-- C8 amended: the literal case-sensitive token `none` yields the empty
value only for the EXTRA, NAME, USER_ID and EMAIL fields; the USERNAME
field keeps the literal string `none`.  The normalisation is
case-sensitive: a capitalised `None` is kept verbatim. -/
theorem C8_none_token_partial_fields (p : Parsed) :
    (parseLine p "EXTRA: none".data).extra = some "" ∧
    (parseLine p "NAME: none".data).name = some "" ∧
    (parseLine p "USER_ID: none".data).user_id = some "" ∧
    (parseLine p "EMAIL: none".data).email = some "" ∧
    (parseLine p "USERNAME: none".data).username = some "none" ∧
    (parseLine p "EXTRA: None".data).extra = some "None" :=
  ⟨rfl, rfl, rfl, rfl, rfl, rfl⟩

/-- A line matching no known label leaves the parsed dict's `extra` entry
unchanged (the other branches never write `extra`). -/
theorem parseLine_extra_skip (p : Parsed) (line : List Char)
    (h : "EXTRA:".data.isPrefixOf line = false) :
    (parseLine p line).extra = p.extra := by
  unfold parseLine
  repeat' split <;> try rfl
  all_goals simp_all

/-- Folding the parser over lines none of which carries an EXTRA label
leaves the `extra` entry of the accumulator unchanged. -/
theorem foldl_extra_skip (lines : List (List Char)) (p : Parsed)
    (h : ∀ line ∈ lines, "EXTRA:".data.isPrefixOf line = false) :
    (lines.foldl parseLine p).extra = p.extra := by
  induction lines generalizing p with
  | nil => rfl
  | cons l ls ih =>
    rw [List.foldl_cons, ih _ (fun x hx => h x (List.mem_cons_of_mem _ hx)),
      parseLine_extra_skip p l (h l (List.mem_cons_self _ _))]

/-- C9: parsing is case-sensitive on label prefixes and tolerant of extra
or missing lines — a line matching none of the six labels leaves the
parsed dict unchanged, a response none of whose lines carries an EXTRA
label leaves the `extra` field absent (hence empty in the decision), and
the response consisting only of `ACTION: unlock_user` and
`USERNAME: bob.jones` parses to exactly those two fields and routes to a
state with action `unlock_user`, username `bob.jones` and empty extra
info. -/
theorem C9_tolerant_parsing :
    (∀ (p : Parsed) (line : List Char),
      "ACTION:".data.isPrefixOf line = false →
      "USERNAME:".data.isPrefixOf line = false →
      "EXTRA:".data.isPrefixOf line = false →
      "NAME:".data.isPrefixOf line = false →
      "USER_ID:".data.isPrefixOf line = false →
      "EMAIL:".data.isPrefixOf line = false →
      parseLine p line = p) ∧
    (∀ response : String,
      (∀ line ∈ splitOnNl (pyStrip response.data),
        "EXTRA:".data.isPrefixOf line = false) →
      (parseResponse response).extra = none) ∧
    parseResponse "ACTION: unlock_user\nUSERNAME: bob.jones"
      = ⟨some "unlock_user", some "bob.jones", none, none, none, none⟩ ∧
    (∀ st : AgentState,
      (supervisorRoute (parseResponse "ACTION: unlock_user\nUSERNAME: bob.jones") st).action
          = "unlock_user" ∧
      (supervisorRoute (parseResponse "ACTION: unlock_user\nUSERNAME: bob.jones") st).username
          = "bob.jones" ∧
      (supervisorRoute (parseResponse "ACTION: unlock_user\nUSERNAME: bob.jones") st).extra_info
          = "") := by
  refine ⟨?_, ?_, by decide, ?_⟩
  · intro p line h1 h2 h3 h4 h5 h6
    unfold parseLine
    simp [h1, h2, h3, h4, h5, h6]
  · intro response h
    exact foldl_extra_skip _ _ h
  · intro st
    rw [supervisorRoute_nonstore _ _ (by decide)]
    exact ⟨rfl, rfl, rfl⟩

/-- C9 witness: the generic tolerance facts instantiated at a concrete
unlabelled line, the concrete two-line response, and a concrete state. -/
theorem C9_witness :
    ("ACTION:".data.isPrefixOf "hello there".data = false ∧
      "USERNAME:".data.isPrefixOf "hello there".data = false ∧
      "EXTRA:".data.isPrefixOf "hello there".data = false ∧
      "NAME:".data.isPrefixOf "hello there".data = false ∧
      "USER_ID:".data.isPrefixOf "hello there".data = false ∧
      "EMAIL:".data.isPrefixOf "hello there".data = false) ∧
    parseLine Parsed.empty "hello there".data = Parsed.empty ∧
    (∀ line ∈ splitOnNl (pyStrip ("ACTION: unlock_user\nUSERNAME: bob.jones" : String).data),
      "EXTRA:".data.isPrefixOf line = false) ∧
    (parseResponse "ACTION: unlock_user\nUSERNAME: bob.jones").extra = none ∧
    ((supervisorRoute (parseResponse "ACTION: unlock_user\nUSERNAME: bob.jones")
        (initialState "Unlock user bob.jones" Memory.empty)).action = "unlock_user" ∧
      (supervisorRoute (parseResponse "ACTION: unlock_user\nUSERNAME: bob.jones")
        (initialState "Unlock user bob.jones" Memory.empty)).username = "bob.jones" ∧
      (supervisorRoute (parseResponse "ACTION: unlock_user\nUSERNAME: bob.jones")
        (initialState "Unlock user bob.jones" Memory.empty)).extra_info = "") :=
  ⟨⟨by decide, by decide, by decide, by decide, by decide, by decide⟩,
    C9_tolerant_parsing.1 Parsed.empty "hello there".data
      (by decide) (by decide) (by decide) (by decide) (by decide) (by decide),
    by decide,
    C9_tolerant_parsing.2.1 "ACTION: unlock_user\nUSERNAME: bob.jones" (by decide),
    C9_tolerant_parsing.2.2.2 (initialState "Unlock user bob.jones" Memory.empty)⟩

/-- One unfolding step of the fuel-indexed graph executor. -/
theorem runFrom_succ (response pw : String) (fuel : Nat) (node : String) (st : AgentState) :
    runFrom response pw (fuel + 1) node st =
      if node = ENDSentinel then (st, [])
      else ((runFrom response pw fuel (nextNode node (runNode response pw node st))
              (runNode response pw node st)).1,
            node :: (runFrom response pw fuel (nextNode node (runNode response pw node st))
              (runNode response pw node st)).2) := rfl

/-- The executor stops at the END sentinel whatever fuel remains. -/
theorem runFrom_at_end (response pw : String) (fuel : Nat) (st : AgentState) :
    runFrom response pw fuel ENDSentinel st = (st, []) := by
  cases fuel with
  | zero => rfl
  | succ n => rw [runFrom_succ, if_pos rfl]

/-- After the supervisor, the next step is `"end"` or one of the three
handler nodes: the `store_info` branch ends the turn, and every other
action maps through `action_to_agent`, whose range is the three handler
nodes plus the default `"end"`. -/
theorem supervisor_next_step_cases (response : String) (st : AgentState) :
    (supervisor_agent response st).next_step = "end" ∨
    (supervisor_agent response st).next_step = "role_agent" ∨
    (supervisor_agent response st).next_step = "password_agent" ∨
    (supervisor_agent response st).next_step = "unlock_agent" := by
  unfold supervisor_agent
  by_cases hA : (parseResponse response).action = some "store_info"
  · rw [supervisorRoute_store _ _ hA]
    left
    rfl
  · rw [supervisorRoute_nonstore _ _ hA]
    show actionToAgent _ = _ ∨ actionToAgent _ = _ ∨ actionToAgent _ = _ ∨ actionToAgent _ = _
    unfold actionToAgent
    by_cases h1 : (parseResponse response).action.getD "" = "assign_role"
    · rw [if_pos h1]
      right; left; rfl
    rw [if_neg h1]
    by_cases h2 : (parseResponse response).action.getD "" = "reset_password"
    · rw [if_pos h2]
      right; right; left; rfl
    rw [if_neg h2]
    by_cases h3 : (parseResponse response).action.getD "" = "unlock_user"
    · rw [if_pos h3]
      right; right; right; rfl
    rw [if_neg h3]
    left; rfl

/-- Node table at the supervisor entry. -/
theorem runNode_supervisor (response pw : String) (st : AgentState) :
    runNode response pw "supervisor" st = supervisor_agent response st := by
  unfold runNode
  rw [if_pos rfl]

/-- Node table at `role_agent`. -/
theorem runNode_role (response pw : String) (st : AgentState) :
    runNode response pw "role_agent" st = role_agent st := by
  unfold runNode
  rw [if_neg (by decide), if_pos rfl]

/-- Node table at `password_agent`. -/
theorem runNode_password (response pw : String) (st : AgentState) :
    runNode response pw "password_agent" st = password_agent pw st := by
  unfold runNode
  rw [if_neg (by decide), if_neg (by decide), if_pos rfl]

/-- Node table at `unlock_agent`. -/
theorem runNode_unlock (response pw : String) (st : AgentState) :
    runNode response pw "unlock_agent" st = unlock_agent st := by
  unfold runNode
  rw [if_neg (by decide), if_neg (by decide), if_neg (by decide), if_pos rfl]

/-- The supervisor's out-edge is the conditional `route_to_next`. -/
theorem nextNode_supervisor (st : AgentState) :
    nextNode "supervisor" st = route_to_next st := by
  unfold nextNode
  rw [if_pos rfl]

/-- Every non-supervisor node's out-edge goes to END. -/
theorem nextNode_nonsupervisor (node : String) (st : AgentState) (h : node ≠ "supervisor") :
    nextNode node st = ENDSentinel := by
  unfold nextNode
  rw [if_neg h]

/-- The conditional edge at a state that ends the turn. -/
theorem route_to_next_end (st : AgentState) (h : st.next_step = "end") :
    route_to_next st = ENDSentinel := by
  unfold route_to_next
  rw [if_pos h]

/-- The conditional edge at a state that continues to a named node. -/
theorem route_to_next_cont (st : AgentState) (h : st.next_step ≠ "end") :
    route_to_next st = st.next_step := by
  unfold route_to_next
  rw [if_neg h]

/-- A full run that ends directly after the supervisor. -/
theorem invoke_of_end (response pw : String) (st : AgentState)
    (h : (supervisor_agent response st).next_step = "end") :
    invoke response pw st = (supervisor_agent response st, ["supervisor"]) := by
  unfold invoke
  rw [show (10 : Nat) = 9 + 1 from rfl, runFrom_succ, if_neg (by decide),
    runNode_supervisor, nextNode_supervisor, route_to_next_end _ h, runFrom_at_end]

/-- A full run that visits `role_agent` after the supervisor. -/
theorem invoke_of_role (response pw : String) (st : AgentState)
    (h : (supervisor_agent response st).next_step = "role_agent") :
    invoke response pw st
      = (role_agent (supervisor_agent response st), ["supervisor", "role_agent"]) := by
  unfold invoke
  rw [show (10 : Nat) = 9 + 1 from rfl, runFrom_succ, if_neg (by decide),
    runNode_supervisor, nextNode_supervisor, route_to_next_cont _ (by rw [h]; decide), h,
    show (9 : Nat) = 8 + 1 from rfl, runFrom_succ, if_neg (by decide),
    runNode_role, nextNode_nonsupervisor _ _ (by decide), runFrom_at_end]

/-- A full run that visits `password_agent` after the supervisor. -/
theorem invoke_of_password (response pw : String) (st : AgentState)
    (h : (supervisor_agent response st).next_step = "password_agent") :
    invoke response pw st
      = (password_agent pw (supervisor_agent response st), ["supervisor", "password_agent"]) := by
  unfold invoke
  rw [show (10 : Nat) = 9 + 1 from rfl, runFrom_succ, if_neg (by decide),
    runNode_supervisor, nextNode_supervisor, route_to_next_cont _ (by rw [h]; decide), h,
    show (9 : Nat) = 8 + 1 from rfl, runFrom_succ, if_neg (by decide),
    runNode_password, nextNode_nonsupervisor _ _ (by decide), runFrom_at_end]

/-- A full run that visits `unlock_agent` after the supervisor. -/
theorem invoke_of_unlock (response pw : String) (st : AgentState)
    (h : (supervisor_agent response st).next_step = "unlock_agent") :
    invoke response pw st
      = (unlock_agent (supervisor_agent response st), ["supervisor", "unlock_agent"]) := by
  unfold invoke
  rw [show (10 : Nat) = 9 + 1 from rfl, runFrom_succ, if_neg (by decide),
    runNode_supervisor, nextNode_supervisor, route_to_next_cont _ (by rw [h]; decide), h,
    show (9 : Nat) = 8 + 1 from rfl, runFrom_succ, if_neg (by decide),
    runNode_unlock, nextNode_nonsupervisor _ _ (by decide), runFrom_at_end]

/-- C10: each of the three handler agents writes only the `result` and
`next_step` fields, setting `next_step` to `"end"`, and leaves `messages`,
`action`, `username`, `extra_info`, the user memory and the remaining
fields unchanged; consequently every workflow run executes the supervisor
once, then at most one handler, and then reaches the END sentinel. -/
theorem C10_handler_frame_and_run_shape :
    (∀ st : AgentState,
      (role_agent st).messages = st.messages ∧
      (role_agent st).action = st.action ∧
      (role_agent st).username = st.username ∧
      (role_agent st).extra_info = st.extra_info ∧
      (role_agent st).user_memory = st.user_memory ∧
      (role_agent st).current_agent = st.current_agent ∧
      (role_agent st).status = st.status ∧
      (role_agent st).next_step = "end") ∧
    (∀ (pw : String) (st : AgentState),
      (password_agent pw st).messages = st.messages ∧
      (password_agent pw st).action = st.action ∧
      (password_agent pw st).username = st.username ∧
      (password_agent pw st).extra_info = st.extra_info ∧
      (password_agent pw st).user_memory = st.user_memory ∧
      (password_agent pw st).current_agent = st.current_agent ∧
      (password_agent pw st).status = st.status ∧
      (password_agent pw st).next_step = "end") ∧
    (∀ st : AgentState,
      (unlock_agent st).messages = st.messages ∧
      (unlock_agent st).action = st.action ∧
      (unlock_agent st).username = st.username ∧
      (unlock_agent st).extra_info = st.extra_info ∧
      (unlock_agent st).user_memory = st.user_memory ∧
      (unlock_agent st).current_agent = st.current_agent ∧
      (unlock_agent st).status = st.status ∧
      (unlock_agent st).next_step = "end") ∧
    (∀ (response pw : String) (st : AgentState),
      ((invoke response pw st).2 = ["supervisor"] ∨
        (invoke response pw st).2 = ["supervisor", "role_agent"] ∨
        (invoke response pw st).2 = ["supervisor", "password_agent"] ∨
        (invoke response pw st).2 = ["supervisor", "unlock_agent"]) ∧
      route_to_next (invoke response pw st).1 = ENDSentinel) := by
  refine ⟨fun st => ⟨rfl, rfl, rfl, rfl, rfl, rfl, rfl, rfl⟩,
    fun pw st => ⟨rfl, rfl, rfl, rfl, rfl, rfl, rfl, rfl⟩,
    fun st => ⟨rfl, rfl, rfl, rfl, rfl, rfl, rfl, rfl⟩, ?_⟩
  intro response pw st
  rcases supervisor_next_step_cases response st with h | h | h | h
  · rw [invoke_of_end response pw st h]
    exact ⟨Or.inl rfl, route_to_next_end _ h⟩
  · rw [invoke_of_role response pw st h]
    exact ⟨Or.inr (Or.inl rfl), route_to_next_end _ rfl⟩
  · rw [invoke_of_password response pw st h]
    exact ⟨Or.inr (Or.inr (Or.inl rfl)), route_to_next_end _ rfl⟩
  · rw [invoke_of_unlock response pw st h]
    exact ⟨Or.inr (Or.inr (Or.inr rfl)), route_to_next_end _ rfl⟩

end BootcampLangGraph
